import Mathlib

/-!
Shallow embedding of `src/src/modules/scope_functions.rs` (crate `kust`).

The source is a single Rust trait `ScopeFunctions`, implemented for every
type `T`, with three one-line methods:

* `fn using<F, R>(self, f: F) -> R where F: FnOnce(Self) -> R { f(self) }`
* `fn also<F, R>(self, f: F) -> Self where F: FnOnce(&Self) -> R { f(&self); self }`
* `fn apply<F, R>(mut self, f: F) -> Self where F: FnOnce(&mut Self) -> R { f(&mut self); self }`

Closures are embedded at three levels of effect:

* pure closures: plain Lean functions.  A closure taking `&mut Self` is a
  function `α → α × β` returning the updated value together with its own
  result `β`.
* effectful closures: explicit state passing, `α → σ → β × σ` (read-only
  argument) and `α → σ → (α × β) × σ` (mutable argument).  The `…S`
  definitions embed the same Rust bodies over these closure types; the
  `logged` wrappers instrument a closure so every invocation appends the
  argument it received to a log, which lets us state "invoked exactly once
  with the original value".
* fallible closures: `α → Except ε β`.  A Rust closure that panics is
  modelled as returning `Except.error`; the `…E` definitions embed the Rust
  bodies, where a panic inside the closure aborts the method body before
  `self` is returned.
-/

universe u v w

/-- Embedding of `fn using<F, R>(self, f: F) -> R { f(self) }` for a pure
closure.  (`using` is a reserved token in Lean, hence the guillemets.) -/
def «using» {α : Type u} {β : Type v} (self : α) (f : α → β) : β :=
  f self

/-- Embedding of `fn also<F, R>(self, f: F) -> Self { f(&self); self }` for a
pure closure: the closure sees the value read-only and its result is dropped. -/
def also {α : Type u} {β : Type v} (self : α) (f : α → β) : α :=
  let _ := f self
  self

/-- Embedding of `fn apply<F, R>(mut self, f: F) -> Self { f(&mut self); self }`
for a pure closure.  The `FnOnce(&mut Self) -> R` closure is embedded as
`α → α × β`: it receives the current value and yields the updated value
together with its own (dropped) result. -/
def apply {α : Type u} {β : Type v} (self : α) (f : α → α × β) : α :=
  (f self).1

/-- Embedding of `using` for an effectful closure, with the side effects made
explicit as state passing over `σ`. -/
def usingS {α : Type u} {σ : Type v} {β : Type w} (self : α)
    (f : α → σ → β × σ) (s : σ) : β × σ :=
  f self s

/-- Embedding of `also` for an effectful closure `f : α → σ → β × σ`:
`f(&self)` runs once for its state effect, its result `β` is dropped, and the
original value is returned together with the updated state. -/
def alsoS {α : Type u} {σ : Type v} {β : Type w} (self : α)
    (f : α → σ → β × σ) (s : σ) : α × σ :=
  let r := f self s
  (self, r.2)

/-- Embedding of `apply` for an effectful closure `f : α → σ → (α × β) × σ`:
`f(&mut self)` runs once, updating both the value and the state; the closure's
own result `β` is dropped and the updated value is returned. -/
def applyS {α : Type u} {σ : Type v} {β : Type w} (self : α)
    (f : α → σ → (α × β) × σ) (s : σ) : α × σ :=
  let r := f self s
  (r.1.1, r.2)

/-- Instruments a read-only effectful closure: every invocation additionally
appends the argument it received to a log.  The log length counts invocations
and the log entries record the exact arguments seen. -/
def logged {α : Type u} {σ : Type v} {β : Type w} (g : α → σ → β × σ) :
    α → σ × List α → β × (σ × List α) :=
  fun a st => ((g a st.1).1, ((g a st.1).2, st.2 ++ [a]))

/-- Instruments a mutating effectful closure: every invocation additionally
appends the argument it received to a log. -/
def loggedMut {α : Type u} {σ : Type v} {β : Type w}
    (h : α → σ → (α × β) × σ) :
    α → σ × List α → (α × β) × (σ × List α) :=
  fun a st => ((h a st.1).1, ((h a st.1).2, st.2 ++ [a]))

/-- Embedding of `using` for a fallible closure: the closure's failure (panic)
is the call's result. -/
def usingE {α : Type u} {ε : Type v} {β : Type w} (self : α)
    (f : α → Except ε β) : Except ε β :=
  f self

/-- Embedding of `also` for a fallible closure: if `f(&self)` fails, the
method body aborts with that same failure before returning `self`. -/
def alsoE {α : Type u} {ε : Type v} {β : Type w} (self : α)
    (f : α → Except ε β) : Except ε α :=
  match f self with
  | .error e => .error e
  | .ok _ => .ok self

/-- Embedding of `apply` for a fallible closure: if `f(&mut self)` fails, the
method body aborts with that same failure before returning the value. -/
def applyE {α : Type u} {ε : Type v} {β : Type w} (self : α)
    (f : α → Except ε (α × β)) : Except ε α :=
  match f self with
  | .error e => .error e
  | .ok r => .ok r.1

/-- C1: for every value `v` and every pure closure `f`, transform-and-replace
(`using`) applied to `v` and `f` returns exactly `f v`. -/
theorem using_returns_f_v {α : Type u} {β : Type v} (v : α) (f : α → β) :
    «using» v f = f v :=
  rfl

/-- C2: inspect-and-return (`also`) returns the original value unchanged, and
for an effectful closure `g` it invokes `g` exactly once with a read-only view
of the original value, discarding `g`'s result: instrumenting `g` with an
invocation log shows the log gains exactly the single entry `v`, the state is
updated by one application of `g` to `v`, and the returned value is `v`. -/
theorem also_invokes_once_and_returns_original {α : Type u} {σ β : Type v}
    (v : α) (f : α → β) (g : α → σ → β × σ) (s : σ) (log : List α) :
    also v f = v ∧
      alsoS v (logged g) (s, log) = (v, ((g v s).2, log ++ [v])) :=
  ⟨rfl, rfl⟩

/-- C3: mutate-and-return (`apply`) invokes its closure exactly once with
(exclusive, by ownership) access to the value, discards the closure's result,
and returns the value as modified by the closure: for a pure mutation `m`
with dropped result `r` the call returns `m v`, and instrumenting an
effectful mutating closure `h` with an invocation log shows exactly one
invocation, on the original `v`, with the mutated value returned. -/
theorem apply_invokes_once_and_returns_mutated {α : Type u} {σ β : Type v}
    (v : α) (m : α → α) (r : β) (h : α → σ → (α × β) × σ) (s : σ)
    (log : List α) :
    apply v (fun a => (m a, r)) = m v ∧
      applyS v (loggedMut h) (s, log) = ((h v s).1.1, ((h v s).2, log ++ [v])) :=
  ⟨rfl, rfl⟩

/-- C4: for each of the three operations, if the supplied closure fails with
error `e` then the operation itself fails with exactly that same `e`: no
alternate result, no wrapping, no recovery. -/
theorem scope_functions_propagate_failure {α : Type u} {ε β : Type v} (v : α)
    (f : α → Except ε β) (g : α → Except ε β) (h : α → Except ε (α × β))
    (e : ε) (hf : f v = .error e) (hg : g v = .error e)
    (hh : h v = .error e) :
    usingE v f = .error e ∧ alsoE v g = .error e ∧ applyE v h = .error e := by
  refine ⟨?_, ?_, ?_⟩ <;> simp [usingE, alsoE, applyE, hf, hg, hh]

/-- Witness for C4 at a concrete input: value `3 : Nat`, closures that all
fail with the string error "boom". -/
theorem scope_functions_propagate_failure_witness :
    usingE (3 : Nat) (fun _ => (Except.error "boom" : Except String Nat)) =
        Except.error "boom" ∧
      alsoE (3 : Nat) (fun _ => (Except.error "boom" : Except String Nat)) =
        Except.error "boom" ∧
      applyE (3 : Nat)
          (fun _ => (Except.error "boom" : Except String (Nat × Nat))) =
        Except.error "boom" :=
  scope_functions_propagate_failure 3 _ _ _ "boom" rfl rfl rfl

/-- C5: inspect-and-return (`also`) with a no-op closure returns the value
exactly. -/
theorem also_noop_is_identity {α : Type u} (v : α) :
    also v (fun _ => ()) = v :=
  rfl

/-- C6: `using` on the integer list `[8,4,19,30,1,0]` with the closure
`|v| (v.iter().sum() / v.len(), v[v.len() / 2])` yields `(10, 30)`. -/
theorem using_concrete_scenario :
    «using» ([8, 4, 19, 30, 1, 0] : List Int)
        (fun l => (l.sum / (l.length : Int), l[l.length / 2]!)) = (10, 30) := by
  decide

/-- C7: the three operations are defined and behave uniformly on a value of
an arbitrary type `α` (any universe), with arbitrary closure result type:
the only constraint is that the value is owned at the call site. -/
theorem scope_functions_on_any_type :
    ∀ (α : Type u) (β : Type v) (v : α) (f : α → β) (g : α → β)
      (h : α → α × β),
      «using» v f = f v ∧ also v g = v ∧ apply v h = (h v).1 :=
  fun _ _ _ _ _ _ => ⟨rfl, rfl, rfl⟩

/-- C8: mutate-and-return (`apply`) with a no-op closure — one whose mutation
leaves the value unchanged, whatever result `r` it reports — returns the
value exactly. -/
theorem apply_noop_is_identity {α : Type u} {β : Type v} (v : α) (r : β) :
    apply v (fun a => (a, r)) = v :=
  rfl

/-- C9: transform-and-replace (`using`) with the identity closure returns the
value exactly. -/
theorem using_identity_closure {α : Type u} (v : α) :
    «using» v (fun a => a) = v :=
  rfl

/-- C10: `also` and `apply` are each expressible through `using`: `also v f`
equals `using v` with the closure that runs `f` on the value, discards its
result and returns the value; `apply v h` equals `using v` with the closure
that applies `h`'s mutation and returns the mutated value. -/
theorem also_apply_definable_from_using {α : Type u} {β : Type v} (v : α)
    (f : α → β) (h : α → α × β) :
    also v f = «using» v (fun a => (fun _ => a) (f a)) ∧
      apply v h = «using» v (fun a => (h a).1) :=
  ⟨rfl, rfl⟩
